import Mathlib

/-!
Shallow embedding of the Bing Chat clone notebook
(src/08-BingChatClone.ipynb) and its specification vocabulary.

The notebook's own code consists of: the output helper
printmd(string) = display(Markdown(string.replace("$","USD "))),
the custom tool class MyBingSearch (fields name, description, k; methods
_run and _arun), the construction tools = [MyBingSearch(k=5)], and two
retry for-loops around agent_executor.run(QUESTION), one with range(2)
and one with range(3).  The agent-execution loop itself is a pre-built
external component.
-/

/-- A single web search result as the wrapper's results function returns it:
a snippet of text, the page title and the source link. -/
structure SearchResult where
  snippet : String
  title : String
  link : String
deriving DecidableEq, Repr

/-- The search backend (an external collaborator): given a query string and a
requested result count it either returns an ordered list of results or fails;
a failure models a raised exception, carried as the exception text. -/
def Backend : Type := String → Nat → Except String (List SearchResult)

/-- Embedding of the notebook's MyBingSearch tool class: its tool name, its
description and the configured result count k (the class default is 2; the
notebook constructs the instance with k = 5). -/
structure MyBingSearch where
  name : String
  description : String
  k : Nat
deriving DecidableEq, Repr

/-- MyBingSearch._run: builds a BingSearchAPIWrapper with self.k and returns
bing.results(query, num_results=self.k).  There is no input validation and no
error handling: the query and k are forwarded verbatim and a backend failure
propagates out of the tool unchanged. -/
def MyBingSearch.run (t : MyBingSearch) (backend : Backend) (query : String) :
    Except String (List SearchResult) :=
  backend query t.k

/-- The backend requests made by one invocation of MyBingSearch._run: exactly
one request, carrying the query verbatim and the configured k, issued
unconditionally. -/
def MyBingSearch.runRequests (t : MyBingSearch) (query : String) :
    List (String × Nat) :=
  [(query, t.k)]

/-- MyBingSearch._arun: raises NotImplementedError with the message
of the source, for every input. -/
def MyBingSearch.arun (_t : MyBingSearch) (_query : String) :
    Except String (List SearchResult) :=
  Except.error "This Tool does not support async"

/-- The backend requests made by MyBingSearch._arun: none, since it raises
before contacting anything. -/
def MyBingSearch.arunRequests (_t : MyBingSearch) (_query : String) :
    List (String × Nat) :=
  []

/-- The tool instance the notebook constructs: tools = [MyBingSearch(k=5)]. -/
def bingTool : MyBingSearch :=
  ⟨"@bing", "useful when the questions includes the term: @bing.\n", 5⟩

/-- One end-to-end attempt of agent_executor.run(QUESTION), indexed by the
retry-loop counter i: either the final answer text, or the text str(e) of the
exception the attempt raised. -/
def Attempt : Type := Nat → Except String String

/-- Whether an attempt outcome is a success (an answer) rather than a raised
exception. -/
def attemptOk {α : Type} : Except String α → Bool
  | Except.ok _ => true
  | Except.error _ => false

/-- The notebook's retry for-loop, at loop index i with the given remaining
budget.  Source, in both run cells:
for i in range(budget):
    try:
        response = agent_executor.run(QUESTION)
        break
    except Exception as e:
        response = str(e)
        continue
Returns none when the budget is zero (response is never assigned); otherwise
the first successful answer, or, when every attempt fails, the text of the
last exception (each failure overwrites response, so the last one wins). -/
def retryFrom (attempt : Attempt) : Nat → Nat → Option (Except String String)
  | _, 0 => none
  | i, fuel + 1 =>
    match attempt i with
    | Except.ok a => some (Except.ok a)
    | Except.error e =>
      match retryFrom attempt (i + 1) fuel with
      | none => some (Except.error e)
      | some r => some r

/-- The notebook's retry loop over the whole budget: range(2) in the first
run cell, range(3) in the site-restricted run cell. -/
def runWithRetries (attempt : Attempt) (budget : Nat) :
    Option (Except String String) :=
  retryFrom attempt 0 budget

/-- Character-level body of printmd's string.replace: every literal dollar
character is replaced by the four characters U, S, D, space; every other
character passes through unchanged. -/
def replaceDollar : List Char → List Char
  | [] => []
  | c :: cs =>
    if c = '$' then 'U' :: 'S' :: 'D' :: ' ' :: replaceDollar cs
    else c :: replaceDollar cs

/-- printmd: the markdown text the notebook displays for a string, namely
string.replace("$", "USD ") of it; display(Markdown(...)) is I/O and renders
this text verbatim. -/
def printmd (s : String) : String :=
  String.mk (replaceDollar s.data)

/-- Modelled from the spec: the ScratchpadEntry data model of section 3.  The
notebook keeps the scratchpad inside the pre-built agent executor, so only the
spec states its shape: a Thought, an Action (tool plus input), or an
Observation carrying retrieved results or raw text. -/
inductive ScratchpadEntry where
  | thought (text : String)
  | action (tool : String) (input : String)
  | observation (results : List SearchResult)
  | observationText (text : String)
deriving DecidableEq, Repr

/-- The links contributed by one scratchpad entry: the link field of each
search result of an Observation, in backend order; other entries contribute
none. -/
def entryLinks : ScratchpadEntry → List String
  | ScratchpadEntry.observation rs => rs.map SearchResult.link
  | _ => []

/-- First-appearance-order deduplication of a list of links. -/
def dedupKeepFirst : List String → List String
  | [] => []
  | x :: xs => x :: (dedupKeepFirst xs).filter (fun y => y ≠ x)

/-- Modelled from the spec: the distinct links a session retrieved, in
first-appearance order across all Observations of its scratchpad
(section 4.3). -/
def scratchpadLinks (sp : List ScratchpadEntry) : List String :=
  dedupKeepFirst (List.flatten (sp.map entryLinks))

/-- Modelled from the spec: citation index n (1-based) resolves exactly when
the session retrieved at least n distinct links. -/
def citationResolves (sp : List ScratchpadEntry) (n : Nat) : Prop :=
  1 ≤ n ∧ n ≤ (scratchpadLinks sp).length

/-- Modelled from the spec, section 9: the duplicate-search guard of the
source is a prompt-level instruction to the model, not a mechanical check, so
the pre-built loop dispatches every Action step to the (stateless) tool.  The
observations a session collects for a given sequence of Action queries are
therefore simply the tool's response for each query in turn. -/
def runActionQueries (t : MyBingSearch) (backend : Backend)
    (queries : List String) : List (Except String (List SearchResult)) :=
  queries.map (fun q => t.run backend q)

/-- The backend requests issued for a sequence of Action queries: one request
per Action, unconditionally (see runActionQueries). -/
def actionRequests (t : MyBingSearch) (queries : List String) :
    List (String × Nat) :=
  queries.map (fun q => (q, t.k))

/-- A backend that is unreachable: every request raises. -/
def downBackend : Backend := fun _ _ => Except.error "SearchUnavailable"

/-- A backend returning one fixed result for every request. -/
def oneResultBackend : Backend := fun _ _ =>
  Except.ok [⟨"snippet text", "page title", "https://example.com/a"⟩]

/-- A fixed sample search result. -/
def egResult : SearchResult := ⟨"snip", "title", "https://example.com/r"⟩

/-- A backend honoring the count bound: it returns min n 1 copies of the
sample result when asked for n. -/
def boundedBackend : Backend := fun _ n =>
  Except.ok (List.replicate (min n 1) egResult)

/-- The retry scenario of the spec: the model's response is unparseable on
attempts 0 and 1 and a valid final answer on attempt 2. -/
def scenarioAttempt : Attempt := fun i =>
  if i < 2 then Except.error "Could not parse LLM output" else Except.ok "final answer"

/-- An attempt that fails every time with the same exception text. -/
def alwaysFailAttempt : Attempt := fun _ => Except.error "Could not parse LLM output"

/-! General lemmas about the retry loop and the dollar replacement. -/

/-- With a positive budget the retry loop always produces a definite outcome:
the except clause catches every exception, so response is always assigned. -/
theorem retryFrom_isSome (attempt : Attempt) (i fuel : Nat) (h : 0 < fuel) :
    (retryFrom attempt i fuel).isSome := by
  cases fuel with
  | zero => exact absurd h (by omega)
  | succ f =>
    unfold retryFrom
    cases attempt i with
    | ok a => simp
    | error e =>
      cases retryFrom attempt (i + 1) f with
      | none => simp
      | some r => simp

/-- An outcome that is not a success is an exception text. -/
theorem attemptOk_false_iff {α : Type} (r : Except String α) :
    attemptOk r = false ↔ ∃ e, r = Except.error e := by
  cases r with
  | ok a => simp [attemptOk]
  | error e => simp [attemptOk]

/-- If the attempt at index t succeeds and every attempt from the start index
up to t fails, the retry loop stops at t and returns exactly that answer. -/
theorem retryFrom_firstOk (attempt : Attempt) (fuel : Nat) :
    ∀ (i t : Nat) (a : String), i ≤ t → t < i + fuel →
    attempt t = Except.ok a →
    (∀ j, i ≤ j → j < t → attemptOk (attempt j) = false) →
    retryFrom attempt i fuel = some (Except.ok a) := by
  induction fuel with
  | zero => intro i t a h1 h2 _ _; exact absurd h2 (by omega)
  | succ f ih =>
    intro i t a h1 h2 hok hprev
    unfold retryFrom
    rcases Nat.eq_or_lt_of_le h1 with heq | hlt
    · subst heq
      rw [hok]
    · have hfail : attemptOk (attempt i) = false := hprev i (Nat.le_refl i) hlt
      rcases (attemptOk_false_iff (attempt i)).mp hfail with ⟨e, he⟩
      rw [he]
      have hrec : retryFrom attempt (i + 1) f = some (Except.ok a) := by
        refine ih (i + 1) t a hlt (by omega) hok ?_
        intro j hj1 hj2
        exact hprev j (by omega) hj2
      rw [hrec]

/-- If every attempt within the budget fails, the retry loop returns the text
of the last exception: each failure overwrites response, so the last wins. -/
theorem retryFrom_allFail (attempt : Attempt) (fuel : Nat) :
    ∀ (i : Nat) (e : String), 0 < fuel →
    (∀ j, i ≤ j → j < i + fuel → attemptOk (attempt j) = false) →
    attempt (i + fuel - 1) = Except.error e →
    retryFrom attempt i fuel = some (Except.error e) := by
  induction fuel with
  | zero => intro i e h _ _; exact absurd h (by omega)
  | succ f ih =>
    intro i e _ hall hlast
    unfold retryFrom
    cases f with
    | zero =>
      have : i + 1 - 1 = i := by omega
      rw [this] at hlast
      rw [hlast]
      simp [retryFrom]
    | succ f2 =>
      have hfail : attemptOk (attempt i) = false :=
        hall i (Nat.le_refl i) (by omega)
      rcases (attemptOk_false_iff (attempt i)).mp hfail with ⟨e0, he0⟩
      rw [he0]
      have hrec : retryFrom attempt (i + 1) (f2 + 1) = some (Except.error e) := by
        refine ih (i + 1) e (by omega) ?_ ?_
        · intro j hj1 hj2
          exact hall j (by omega) (by omega)
        · have : i + 1 + (f2 + 1) - 1 = i + (f2 + 1 + 1) - 1 := by omega
          rw [this]
          exact hlast
      rw [hrec]

/-- Replacing dollars in a dollar-free character list changes nothing. -/
theorem replaceDollar_of_not_mem (cs : List Char) (h : '$' ∉ cs) :
    replaceDollar cs = cs := by
  induction cs with
  | nil => rfl
  | cons c cs ih =>
    have hc : c ≠ '$' := fun hc => h (hc ▸ List.mem_cons_self c cs)
    have hcs : '$' ∉ cs := fun hm => h (List.mem_cons_of_mem c hm)
    simp [replaceDollar, hc, ih hcs]

/-- Replacing dollars in a character list containing one changes it. -/
theorem replaceDollar_ne_of_mem (cs : List Char) (h : '$' ∈ cs) :
    replaceDollar cs ≠ cs := by
  induction cs with
  | nil => exact absurd h (List.not_mem_nil '$')
  | cons c cs ih =>
    by_cases hc : c = '$'
    · subst hc
      simp only [replaceDollar, if_pos rfl]
      intro hEq
      injection hEq with h1 _
      exact absurd h1 (by decide)
    · have hcs : '$' ∈ cs := by
        rcases List.mem_cons.mp h with h1 | h1
        · exact absurd h1.symm hc
        · exact h1
      simp only [replaceDollar, if_neg hc]
      intro hEq
      exact ih hcs (by injection hEq)

/-- printmd is the identity on a string exactly when the string has no
dollar character. -/
theorem printmd_eq_self_iff (s : String) : printmd s = s ↔ '$' ∉ s.data := by
  constructor
  · intro hEq
    by_contra hmem
    have hdata : (printmd s).data = s.data := congrArg String.data hEq
    have : replaceDollar s.data = s.data := hdata
    exact replaceDollar_ne_of_mem s.data hmem this
  · intro hmem
    show String.mk (replaceDollar s.data) = s
    rw [replaceDollar_of_not_mem s.data hmem]

/-! Claim theorems. -/

/-- C1, counterexample: the answer text carrying citation marker number 1,
rendered for a session whose scratchpad retrieved no links at all, comes out
of printmd completely unchanged: the fabricated marker is neither stripped
nor annotated, although the citation resolves to no retrieved link. -/
theorem c1_fabricated_citation_passes_through :
    printmd "Answer [1]" = "Answer [1]" ∧ ¬ citationResolves [] 1 := by
  refine ⟨by decide, ?_⟩
  intro h
  have h2 := h.2
  simp [scratchpadLinks, dedupKeepFirst] at h2

/-- C1, amended (the notebook enforces no no-fabrication invariant): the
rendering step printmd performs no citation validation at all; on any answer
text free of dollar characters (its only transformation) it is the identity,
so every citation marker, resolvable or fabricated, passes through unchanged
whatever the session's scratchpad holds. -/
theorem c1_renderer_passes_markers_unchanged (s : String) (h : '$' ∉ s.data) :
    printmd s = s :=
  (printmd_eq_self_iff s).mpr h

/-- C1, witness for the amended theorem at a concrete fabricated marker. -/
theorem c1_renderer_passes_markers_unchanged_witness :
    printmd "see [99]" = "see [99]" :=
  c1_renderer_passes_markers_unchanged "see [99]" (by decide)

/-- C2, confirmed: the notebook retries agent_executor.run under a budget of
2 (first run cell) or 3 (site-restricted run cell); when some attempt within
the budget parses to a final answer and every earlier one failed, the loop
stops with exactly that answer (Done), and only when every attempt in the
budget fails does the loop end carrying an error outcome (Failed). -/
theorem c2_parse_retry_budget (attempt : Attempt) (n : Nat)
    (hn : n = 2 ∨ n = 3) :
    (∀ t a, t < n → attempt t = Except.ok a →
      (∀ j, j < t → attemptOk (attempt j) = false) →
      runWithRetries attempt n = some (Except.ok a)) ∧
    (∀ e, (∀ j, j < n → attemptOk (attempt j) = false) →
      attempt (n - 1) = Except.error e →
      runWithRetries attempt n = some (Except.error e)) := by
  have hn0 : 0 < n := by rcases hn with h | h <;> omega
  constructor
  · intro t a ht hok hprev
    exact retryFrom_firstOk attempt n 0 t a (Nat.zero_le t) (by omega) hok
      (fun j _ hj => hprev j hj)
  · intro e hall hlast
    refine retryFrom_allFail attempt n 0 e hn0
      (fun j _ hj => hall j (by omega)) ?_
    have : 0 + n - 1 = n - 1 := by omega
    rw [this]
    exact hlast

/-- C2, witness: the spec scenario of two unparseable responses followed by a
valid final answer on the third attempt, under the budget of 3. -/
theorem c2_parse_retry_budget_witness :
    runWithRetries scenarioAttempt 3 = some (Except.ok "final answer") :=
  (c2_parse_retry_budget scenarioAttempt 3 (Or.inr rfl)).1 2 "final answer"
    (by decide) rfl (by decide)

/-- C3, counterexample: the reserved markup character dollar does not
round-trip: printmd renders the input carrying a literal dollar as the text
with USD-space substituted for it, which differs from the input. -/
theorem c3_dollar_not_roundtripped :
    printmd "$7000" = "USD 7000" ∧ printmd "$7000" ≠ "$7000" := by
  constructor <;> decide

/-- C3, amended (rendering is not lossless for the dollar character):
rendering through printmd is the identity on a text precisely when the text
contains no literal dollar character; any text containing one is altered, the
dollar being replaced by USD-space and never restored. -/
theorem c3_roundtrip_iff_no_dollar (s : String) :
    printmd s = s ↔ '$' ∉ s.data :=
  printmd_eq_self_iff s

/-- C3, witness for the amended theorem at concrete inputs on both sides of
the equivalence. -/
theorem c3_roundtrip_iff_no_dollar_witness :
    printmd "a hotel in Madrid" = "a hotel in Madrid" ∧ printmd "50$" ≠ "50$" := by
  constructor
  · exact (c3_roundtrip_iff_no_dollar "a hotel in Madrid").mpr (by decide)
  · intro h
    exact absurd ((c3_roundtrip_iff_no_dollar "50$").mp h) (by decide)

/-- C4, counterexample: with an unreachable backend, MyBingSearch._run does
not produce an Observation carrying an error marker: the tool has no error
handling, so the failure propagates out of it as the raised exception itself
and no observation value is returned at all. -/
theorem c4_failure_is_not_an_observation :
    bingTool.run downBackend "latest news" = Except.error "SearchUnavailable" ∧
    attemptOk (bingTool.run downBackend "latest news") = false :=
  ⟨rfl, rfl⟩

/-- C4, amended (the failure aborts the attempt, not the process): a backend
failure propagates out of MyBingSearch._run unchanged, so no error-marker
Observation is recorded and that whole attempt aborts; the notebook's retry
loop catches every exception, hence under a positive budget the session still
ends with a definite outcome, a later attempt's answer or the last exception
text, and no unhandled exception reaches the caller. -/
theorem c4_failure_aborts_attempt_not_process (backend : Backend) (q e : String)
    (hb : backend q bingTool.k = Except.error e) (attempt : Attempt) (n : Nat)
    (hn : 0 < n) :
    bingTool.run backend q = Except.error e ∧
    (runWithRetries attempt n).isSome := by
  exact ⟨hb, retryFrom_isSome attempt 0 n hn⟩

/-- C4, witness: the unreachable backend and an attempt sequence that fails
throughout, under the budget of 2. -/
theorem c4_failure_aborts_attempt_not_process_witness :
    bingTool.run downBackend "only query" = Except.error "SearchUnavailable" ∧
    (runWithRetries alwaysFailAttempt 2).isSome :=
  c4_failure_aborts_attempt_not_process downBackend "only query"
    "SearchUnavailable" rfl alwaysFailAttempt 2 (by decide)

/-- C5, counterexample: one session issuing the identical query as two Action
steps executes it against the backend both times: two identical backend
requests are issued and both observations are the backend's real result list;
nothing skips the duplicate and no already-searched feedback is produced. -/
theorem c5_duplicate_query_executed_twice :
    actionRequests bingTool ["oil supply", "oil supply"] =
      [("oil supply", 5), ("oil supply", 5)] ∧
    runActionQueries bingTool oneResultBackend ["oil supply", "oil supply"] =
      [Except.ok [⟨"snippet text", "page title", "https://example.com/a"⟩],
       Except.ok [⟨"snippet text", "page title", "https://example.com/a"⟩]] :=
  ⟨rfl, rfl⟩

/-- C5, amended (no mechanical duplicate guard exists): duplicate avoidance
is only a prompt-level instruction to the model; no code checks prior Action
entries, so every Action step of a session, duplicate or not, issues exactly
one backend request carrying its query and the configured k, and receives the
backend's response for it. -/
theorem c5_every_action_hits_backend (t : MyBingSearch) (backend : Backend)
    (queries : List String) :
    (actionRequests t queries).length = queries.length ∧
    (∀ i, (actionRequests t queries).get? i =
      (queries.get? i).map (fun q => (q, t.k))) ∧
    (∀ i, (runActionQueries t backend queries).get? i =
      (queries.get? i).map (fun q => t.run backend q)) := by
  refine ⟨List.length_map queries _, fun i => ?_, fun i => ?_⟩
  · simp [actionRequests]
  · simp [runActionQueries]

/-- The notebook configures its single tool with the result count 5. -/
theorem bingTool_k_eq_five : bingTool.k = 5 := rfl

/-- C7, confirmed: provided the backend honors its external-interface
contract of returning at most the requested count, every successful search
through the notebook's tool (constructed with k = 5) yields exactly the
backend's ordered list of snippet/title/link records for the pair
(query, 5), with at most 5 entries. -/
theorem c7_result_limit (backend : Backend)
    (hB : ∀ q n rs, backend q n = Except.ok rs → rs.length ≤ n)
    (q : String) (rs : List SearchResult)
    (h : bingTool.run backend q = Except.ok rs) :
    backend q 5 = Except.ok rs ∧ rs.length ≤ 5 := by
  have h5 : backend q 5 = Except.ok rs := h
  exact ⟨h5, hB q 5 rs h5⟩

/-- C7, witness: a backend answering every request with at most one copy of
the sample result. -/
theorem c7_result_limit_witness :
    boundedBackend "who won the 2023 superbowl" 5 = Except.ok [egResult] ∧
    ([egResult] : List SearchResult).length ≤ 5 :=
  c7_result_limit boundedBackend
    (by
      intro q n rs h
      have hrs : List.replicate (min n 1) egResult = rs := by
        injection h
      rw [← hrs, List.length_replicate]
      omega)
    "who won the 2023 superbowl" [egResult] rfl

/-- C8, counterexample: the adapter enforces no precondition: the empty
query, empty after trimming, is still sent to the backend as one request, and
a tool constructed with k = 0 sends its request with a non-positive result
limit. -/
theorem c8_no_precondition_enforced :
    bingTool.runRequests "" = [("", 5)] ∧ ("" : String).data = [] ∧
    (MyBingSearch.mk "@bing" "d" 0).runRequests "wasps" = [("wasps", 0)] :=
  ⟨rfl, by decide, rfl⟩

/-- C8, amended (the adapter validates nothing): for every tool configuration
and every query, including a query empty after trimming and a non-positive k,
MyBingSearch._run issues exactly one backend request carrying the query
verbatim together with the configured k, and returns exactly the backend's
response to that request; satisfying the input constraints is left to the
caller. -/
theorem c8_adapter_forwards_unvalidated (t : MyBingSearch) (backend : Backend)
    (q : String) :
    t.runRequests q = [(q, t.k)] ∧ t.run backend q = backend q t.k :=
  ⟨rfl, rfl⟩

/-- C9, confirmed: when every attempt within the retry budget fails, the
caller-visible response is exactly the text of the last exception, and it is
not a success outcome: no partial answer is synthesized in this terminal
case. -/
theorem c9_failed_surfaces_last_error (attempt : Attempt) (n : Nat)
    (hn : 0 < n) (hall : ∀ j, j < n → attemptOk (attempt j) = false)
    (e : String) (hlast : attempt (n - 1) = Except.error e) :
    runWithRetries attempt n = some (Except.error e) ∧
    ∀ a, runWithRetries attempt n ≠ some (Except.ok a) := by
  have hmain : runWithRetries attempt n = some (Except.error e) := by
    refine retryFrom_allFail attempt n 0 e hn (fun j _ hj => hall j (by omega)) ?_
    have h0 : 0 + n - 1 = n - 1 := by omega
    rw [h0]
    exact hlast
  refine ⟨hmain, fun a hcontra => ?_⟩
  rw [hmain] at hcontra
  have : Except.error e = Except.ok a := by injection hcontra
  exact Except.noConfusion this

/-- C9, witness: every attempt fails with the same exception text under the
budget of 2. -/
theorem c9_failed_surfaces_last_error_witness :
    runWithRetries alwaysFailAttempt 2 =
      some (Except.error "Could not parse LLM output") ∧
    ∀ a, runWithRetries alwaysFailAttempt 2 ≠ some (Except.ok a) :=
  c9_failed_surfaces_last_error alwaysFailAttempt 2 (by decide) (by decide)
    "Could not parse LLM output" rfl

/-- C10, confirmed: for every tool configuration and every query, the
asynchronous variant _arun raises NotImplementedError carrying the message of
the source, and issues no backend request at all. -/
theorem c10_arun_always_raises (t : MyBingSearch) (q : String) :
    t.arun q = Except.error "This Tool does not support async" ∧
    t.arunRequests q = [] :=
  ⟨rfl, rfl⟩
